import Mathlib

/-!
Shallow embedding of `gpt_researcher/retrievers/bing/bing.py` (class `BingSearch`).

The Python class wraps a remote Azure AI Projects agent service.  We embed it by
making the outcome of every remote call an explicit parameter (`RemoteEnv`):
each remote step either returns a value or raises an exception (`Except String`).
Python `None` / possibly-missing attributes (`getattr(x, f, None)`) are embedded
as `Option`; Python truthiness of the relevant values is embedded explicitly.
Logging calls are side effects with no influence on data flow and are dropped.
-/

set_option linter.unusedVariables false

namespace GptResearcher.Bing

/-- The optional domain filters of `BingSearch.__init__`: Python `None`,
a list of strings, or (the `isinstance` else-branch in the code) a plain string. -/
inductive QueryDomains where
  | none
  | list (ds : List String)
  | str (s : String)
deriving DecidableEq

/-- Python truthiness of a `query_domains` value: `None`, `[]` and `""` are falsy. -/
def QueryDomains.pyTruthy : QueryDomains → Bool
  | QueryDomains.none => false
  | QueryDomains.list ds => !ds.isEmpty
  | QueryDomains.str s => !(s == "")

/-- Models `query_domains or None` in `__init__`: any falsy value becomes `None`. -/
def QueryDomains.orNone (qd : QueryDomains) : QueryDomains :=
  if qd.pyTruthy then qd else QueryDomains.none

/-- The two environment variables read by `__init__`
(`AI_PROJECT_ENDPOINT`, `BING_CONNECTION_NAME_ENV`); `Option.none` means absent. -/
structure EnvVars where
  ai_project_endpoint : Option String
  bing_connection_name : Option String
deriving DecidableEq

/-- Python truthiness of `os.environ.get(...)`: absent (`None`) or `""` is falsy. -/
def truthyEnvValue : Option String → Bool
  | Option.none => false
  | Option.some s => !(s == "")

/-- The state a successfully constructed `BingSearch` carries into `search`
(the query and the normalized domain filters; the client objects are opaque). -/
structure BingSearchState where
  query : String
  query_domains : QueryDomains
deriving DecidableEq

/-- `BingSearch.__init__`: stores `query` and `query_domains or None`, then raises
if either required environment variable is missing or empty.  (Construction of the
credential and `AIProjectClient` is delegated to the vendor library and not
modelled; the only construction-time failure embedded is the env-var check.) -/
def BingSearch.init (query : String) (query_domains : QueryDomains)
    (ev : EnvVars) : Except String BingSearchState :=
  if !(truthyEnvValue ev.ai_project_endpoint) || !(truthyEnvValue ev.bing_connection_name) then
    Except.error "Missing PROJECT_CONNECTION_STRING_ENV or BING_CONNECTION_NAME_ENV environment variables."
  else
    Except.ok { query := query, query_domains := query_domains.orNone }

/-- The query-string construction at the top of `search`: append
`site:` filters joined by `OR` when domain filters are present. -/
def buildQuery (query : String) (query_domains : QueryDomains) : String :=
  if query_domains.pyTruthy then
    match query_domains with
    | QueryDomains.list ds =>
        query ++ " " ++ String.intercalate " OR " (ds.map (fun d => "site:" ++ d))
    | QueryDomains.str s => query ++ " site:" ++ s
    | QueryDomains.none => query
  else
    query

/-- A remote `url_citation` object; its `url`/`title` attributes may be missing
(`getattr(..., None)`). -/
structure UrlCitation where
  url : Option String
  title : Option String
deriving DecidableEq

/-- A remote annotation object; every attribute read defensively in `search`
may be missing. -/
structure Annotation where
  type : Option String
  text : Option String
  start_index : Option Int
  end_index : Option Int
  url_citation : Option UrlCitation
deriving DecidableEq

/-- An entry of the `formatted_annotations` list built by `search`:
all keys present, missing inputs mapped to `None`. -/
structure FormattedAnnotation where
  type : Option String
  text : Option String
  start_index : Option Int
  end_index : Option Int
  url_citation : Option UrlCitation
deriving DecidableEq

/-- The mapping applied to each annotation inside the loop over the annotations:
each field is `getattr(..., None)`, and the output `url_citation` dict is built
only when the input `url_citation` is truthy (a present object), else `None`. -/
def formatAnnotation ( annotation : Annotation) : FormattedAnnotation :=
  { type := annotation.type
    text := annotation.text
    start_index := annotation.start_index
    end_index := annotation.end_index
    url_citation :=
      match annotation.url_citation with
      | Option.none => Option.none
      | Option.some uc => Option.some { url := uc.url, title := uc.title } }

/-- The `text` attribute of a thread message: `value` may be missing
(checked by `hasattr`), `annotations` defaults to `[]` when missing. -/
structure MessageText where
  value : Option String
  annotations : List Annotation
deriving DecidableEq

/-- A thread message returned by `messages.list`: `role` read via
`getattr(msg, "role", None)`, `text` may be absent (checked by `hasattr`). -/
structure ThreadMessage where
  role : Option String
  text : Option MessageText
deriving DecidableEq

/-- The `"text"` dict nested in a response entry. -/
structure ResponseText where
  value : String
  annotations : List FormattedAnnotation
deriving DecidableEq

/-- One entry of the `response_list` returned by `search`. -/
structure ResponseItem where
  type : String
  text : ResponseText
deriving DecidableEq

/-- The `for msg in reversed(messages)` loop: the first message of the reversed
list whose `role` attribute equals `"assistant"` (else `last_msg` stays `None`). -/
def findLastAssistant (messages : List ThreadMessage) : Option ThreadMessage :=
  messages.reverse.find? (fun msg => msg.role == Option.some "assistant")

/-- Building `response_list` from the listed messages: select the last assistant
message; if it exists and has `text.value`, emit the single formatted entry,
otherwise leave the list empty (the "No response from the agent." branch). -/
def buildResponseList (messages : List ThreadMessage) : List ResponseItem :=
  match findLastAssistant messages with
  | Option.none => []
  | Option.some last_msg =>
    match last_msg.text with
    | Option.none => []
    | Option.some t =>
      match t.value with
      | Option.none => []
      | Option.some value =>
        [{ type := "text",
           text := { value := value, annotations := t.annotations.map formatAnnotation } }]

/-- The created agent (only its `id` is used after creation). -/
structure Agent where
  id : String
deriving DecidableEq

/-- The created conversation thread (only its `id` is used). -/
structure AgentThread where
  id : String
deriving DecidableEq

/-- The processed run; `search` only inspects its `status` string. -/
structure RunOutcome where
  status : String
deriving DecidableEq

/-- Remote environment of one call: the outcome (value or raised exception) of
each remote operation `search` performs, in program order.  Each operation is
invoked at most once per call, so a fixed outcome per operation is faithful. -/
structure RemoteEnv where
  enterClient : Except String Unit
  create_agent : Except String Agent
  threads_create : Except String AgentThread
  messages_create : Except String Unit
  runs_create_and_process : Except String RunOutcome
  messages_list : Except String (List ThreadMessage)
  delete_agent : Except String Unit
  exitClient : Except String Unit

/-- Observable trace of the code inside the `with` block: the outcome that
propagates out of the block (a return value or an uncaught exception), the
query text passed as `content` to `messages.create` (if that call was reached),
and how many times `delete_agent` was attempted. -/
structure WithBlockTrace where
  outcome : Except String (List ResponseItem)
  transmitted : Option String
  deleteAttempts : Nat

/-- Effect of leaving the `with` statement: on a normal return, a raising
`__exit__` replaces the result by an exception; when the block is already
propagating an exception, an exception still propagates. -/
def applyExit (exitOutcome : Except String Unit) (tr : WithBlockTrace) : WithBlockTrace :=
  match tr.outcome, exitOutcome with
  | Except.ok _, Except.error e => { tr with outcome := Except.error e }
  | _, _ => tr

/-- The body of the `with` block in `search`, before `__exit__` runs: create
agent, thread and message, run the agent, and either return `[]` on a failed
run (note: without attempting deletion) or list the messages, build
`response_list`, attempt agent deletion (failure swallowed) and return it.
Any raising step propagates its exception; no deletion happens on those paths
(there is no `finally`). -/
def withBlockBody (st : BingSearchState) (env : RemoteEnv) : WithBlockTrace :=
  let query := buildQuery st.query st.query_domains
  match env.enterClient with
  | Except.error e => { outcome := Except.error e, transmitted := Option.none, deleteAttempts := 0 }
  | Except.ok _ =>
    match env.create_agent with
    | Except.error e => { outcome := Except.error e, transmitted := Option.none, deleteAttempts := 0 }
    | Except.ok agent =>
      match env.threads_create with
      | Except.error e => { outcome := Except.error e, transmitted := Option.none, deleteAttempts := 0 }
      | Except.ok thread =>
        match env.messages_create with
        | Except.error e => { outcome := Except.error e, transmitted := Option.some query, deleteAttempts := 0 }
        | Except.ok _ =>
          match env.runs_create_and_process with
          | Except.error e => { outcome := Except.error e, transmitted := Option.some query, deleteAttempts := 0 }
          | Except.ok run =>
            if run.status == "failed" then
              { outcome := Except.ok [], transmitted := Option.some query, deleteAttempts := 0 }
            else
              match env.messages_list with
              | Except.error e =>
                  { outcome := Except.error e, transmitted := Option.some query, deleteAttempts := 0 }
              | Except.ok messages =>
                let response_list := buildResponseList messages
                let del : Unit :=
                  match env.delete_agent with
                  | Except.ok _ => ()
                  | Except.error _ => ()
                { outcome := Except.ok response_list, transmitted := Option.some query,
                  deleteAttempts := 1 }

/-- The whole `try` body: the `with` block plus `__exit__` on leaving it.
(When `__enter__` itself raised, `__exit__` does not run; `applyExit` is the
identity on exception outcomes, so applying it uniformly is faithful.) -/
def searchBody (st : BingSearchState) (env : RemoteEnv) : WithBlockTrace :=
  applyExit env.exitClient (withBlockBody st env)

/-- What a call to `search` yields: the returned list plus the observable
remote interactions.  `search` itself never raises, hence no `Except` here. -/
structure SearchTrace where
  result : List ResponseItem
  transmitted : Option String
  deleteAttempts : Nat
deriving DecidableEq

/-- `BingSearch.search`: run the `try` body; the `except Exception` handler
turns any exception into a logged error and an empty returned list. -/
def BingSearch.search (st : BingSearchState) (env : RemoteEnv)
    (max_results : Nat) : SearchTrace :=
  let body := searchBody st env
  match body.outcome with
  | Except.ok response_list =>
      { result := response_list, transmitted := body.transmitted,
        deleteAttempts := body.deleteAttempts }
  | Except.error _ =>
      { result := [], transmitted := body.transmitted,
        deleteAttempts := body.deleteAttempts }

/-! Sample concrete values used by the witnesses. -/

/-- A sample assistant message with a text value and no annotations. -/
def sampleAssistantMessage : ThreadMessage :=
  { role := Option.some "assistant",
    text := Option.some { value := Option.some "answer", annotations := [] } }

/-- A sample remote environment in which every remote step succeeds. -/
def okEnv : RemoteEnv :=
  { enterClient := Except.ok ()
    create_agent := Except.ok { id := "agent-1" }
    threads_create := Except.ok { id := "thread-1" }
    messages_create := Except.ok ()
    runs_create_and_process := Except.ok { status := "completed" }
    messages_list := Except.ok [sampleAssistantMessage]
    delete_agent := Except.ok ()
    exitClient := Except.ok () }

/-- Sample environment variables in which both required settings are set. -/
def sampleEnvVars : EnvVars :=
  { ai_project_endpoint := Option.some "https://endpoint"
    bing_connection_name := Option.some "bing-conn" }

/-! Helper lemmas. -/

theorem applyExit_transmitted (x : Except String Unit) (tr : WithBlockTrace) :
    (applyExit x tr).transmitted = tr.transmitted := by
  rcases tr with ⟨o, t, d⟩
  cases o <;> cases x <;> rfl

theorem applyExit_deleteAttempts (x : Except String Unit) (tr : WithBlockTrace) :
    (applyExit x tr).deleteAttempts = tr.deleteAttempts := by
  rcases tr with ⟨o, t, d⟩
  cases o <;> cases x <;> rfl

theorem applyExit_outcome_ok (x : Except String Unit) (tr : WithBlockTrace)
    (l : List ResponseItem) (h : (applyExit x tr).outcome = Except.ok l) :
    tr.outcome = Except.ok l := by
  rcases tr with ⟨o, t, d⟩
  cases o <;> cases x <;> first | exact h | simp [applyExit] at h

/-- The result returned by `search` when the body of the `with` block completed
with an empty list: empty, whether or not `__exit__` then raised. -/
theorem search_result_of_body_empty (st : BingSearchState) (env : RemoteEnv)
    (m : Nat) (h : (withBlockBody st env).outcome = Except.ok []) :
    (BingSearch.search st env m).result = [] := by
  unfold BingSearch.search searchBody
  cases hx : env.exitClient <;> simp [applyExit, h, hx]

/-- What the `with` block transmits once the message-creation call is reached:
exactly the built query, whatever happens afterwards. -/
theorem withBlockBody_transmitted_of_reach (st : BingSearchState) (env : RemoteEnv)
    (a : Agent) (th : AgentThread)
    (h1 : env.enterClient = Except.ok ()) (h2 : env.create_agent = Except.ok a)
    (h3 : env.threads_create = Except.ok th) :
    (withBlockBody st env).transmitted
      = Option.some (buildQuery st.query st.query_domains) := by
  unfold withBlockBody
  rw [h1, h2, h3]
  cases h4 : env.messages_create <;> simp
  cases h5 : env.runs_create_and_process <;> simp
  split
  · rfl
  · cases h6 : env.messages_list <;> simp

theorem search_transmitted_eq (st : BingSearchState) (env : RemoteEnv) (m : Nat) :
    (BingSearch.search st env m).transmitted = (withBlockBody st env).transmitted := by
  unfold BingSearch.search searchBody
  cases h : (applyExit env.exitClient (withBlockBody st env)).outcome <;>
    simp [h, applyExit_transmitted]

/-- The extracted value of `BingSearch.__init__` on success. -/
theorem init_ok_inv (q : String) (qd : QueryDomains) (ev : EnvVars)
    (st : BingSearchState) (h : BingSearch.init q qd ev = Except.ok st) :
    st = { query := q, query_domains := qd.orNone } := by
  unfold BingSearch.init at h
  split at h
  · cases h
  · exact (Except.ok.inj h).symm

theorem buildResponseList_length_le_one (messages : List ThreadMessage) :
    (buildResponseList messages).length ≤ 1 := by
  unfold buildResponseList
  split
  · simp
  · split
    · simp
    · split
      · simp
      · simp

theorem withBlockBody_ok_length (st : BingSearchState) (env : RemoteEnv)
    (l : List ResponseItem) (h : (withBlockBody st env).outcome = Except.ok l) :
    l.length ≤ 1 := by
  rcases env with ⟨e1, e2, e3, e4, e5, e6, e7, e8⟩
  unfold withBlockBody at h
  cases e1 <;> cases e2 <;> cases e3 <;> cases e4 <;> cases e5 <;>
    simp_all
  rename_i run
  by_cases hs : run.status = "failed"
  · rw [if_pos hs] at h
    have hl : Except.ok ([] : List ResponseItem) = Except.ok l := h
    cases hl
    simp
  · rw [if_neg hs] at h
    cases e6 with
    | error e => simp at h
    | ok messages =>
      have hl : Except.ok (buildResponseList messages) = Except.ok l := h
      cases hl
      exact buildResponseList_length_le_one messages

theorem truthyEnvValue_eq_false (o : Option String) :
    truthyEnvValue o = false ↔ o = Option.none ∨ o = Option.some "" := by
  cases o with
  | none => simp [truthyEnvValue]
  | some s => simp [truthyEnvValue]

/-! The claims. -/

/-- Claim C1, evidence of the code bug: the comment in `search` says the agent
is always deleted before returning, and the spec says deletion is attempted
exactly once per successful agent creation on every downstream path; but when
the run reports status "failed", and likewise when a later step raises after
agent creation succeeded, `search` returns without any deletion attempt. -/
theorem bing_search_skips_agent_deletion :
    (BingSearch.search { query := "q", query_domains := QueryDomains.none }
        { okEnv with runs_create_and_process := Except.ok { status := "failed" } }
        7).deleteAttempts = 0
    ∧ (BingSearch.search { query := "q", query_domains := QueryDomains.none }
        { okEnv with threads_create := Except.error "network error" }
        7).deleteAttempts = 0
    ∧ (BingSearch.search { query := "q", query_domains := QueryDomains.none }
        okEnv 7).deleteAttempts = 1 := by
  refine ⟨rfl, rfl, rfl⟩

/-- Claim C2: whenever the body of the `try` block (the whole remote-call
portion) raises an exception, `search` catches it and returns the empty list;
`search` itself is a total function into `SearchTrace`, so no exception
escapes to the caller. -/
theorem bing_search_swallows_exceptions (st : BingSearchState) (env : RemoteEnv)
    (m : Nat) (e : String)
    (h : (searchBody st env).outcome = Except.error e) :
    (BingSearch.search st env m).result = [] := by
  unfold BingSearch.search
  simp [h]

theorem bing_search_swallows_exceptions_witness :
    (BingSearch.search { query := "q", query_domains := QueryDomains.none }
      { okEnv with create_agent := Except.error "auth failure" } 7).result = [] :=
  bing_search_swallows_exceptions
    { query := "q", query_domains := QueryDomains.none }
    { okEnv with create_agent := Except.error "auth failure" }
    7 "auth failure" rfl

/-- Claim C3: whenever the message-creation call is reached, a retriever
constructed with domain filters ["a.com", "b.com"] transmits exactly
the base query followed by a single space and "site:a.com OR site:b.com",
and a retriever constructed with no domain filters transmits the raw query. -/
theorem bing_search_transmitted_query (q : String) (ev : EnvVars)
    (st : BingSearchState) (env : RemoteEnv) (m : Nat) (a : Agent)
    (th : AgentThread)
    (h1 : env.enterClient = Except.ok ()) (h2 : env.create_agent = Except.ok a)
    (h3 : env.threads_create = Except.ok th) :
    (BingSearch.init q (QueryDomains.list ["a.com", "b.com"]) ev = Except.ok st →
        (BingSearch.search st env m).transmitted
          = Option.some (q ++ " site:a.com OR site:b.com"))
    ∧ (BingSearch.init q QueryDomains.none ev = Except.ok st →
        (BingSearch.search st env m).transmitted = Option.some q) := by
  constructor
  · intro hinit
    have hst := init_ok_inv _ _ _ _ hinit
    subst hst
    rw [search_transmitted_eq, withBlockBody_transmitted_of_reach _ _ a th h1 h2 h3]
    show Option.some (q ++ " " ++ "site:a.com OR site:b.com")
      = Option.some (q ++ " site:a.com OR site:b.com")
    rw [String.append_assoc]
    rfl
  · intro hinit
    have hst := init_ok_inv _ _ _ _ hinit
    subst hst
    rw [search_transmitted_eq, withBlockBody_transmitted_of_reach _ _ a th h1 h2 h3]
    rfl

theorem bing_search_transmitted_query_witness :
    ((BingSearch.search
        { query := "capital", query_domains := QueryDomains.list ["a.com", "b.com"] }
        okEnv 7).transmitted
      = Option.some ("capital" ++ " site:a.com OR site:b.com"))
    ∧ ((BingSearch.search { query := "capital", query_domains := QueryDomains.none }
        okEnv 7).transmitted = Option.some "capital") :=
  ⟨(bing_search_transmitted_query "capital" sampleEnvVars _ okEnv 7
      { id := "agent-1" } { id := "thread-1" } rfl rfl rfl).1 rfl,
   (bing_search_transmitted_query "capital" sampleEnvVars _ okEnv 7
      { id := "agent-1" } { id := "thread-1" } rfl rfl rfl).2 rfl⟩

/-- Claim C4: when all steps up to the run succeed and the run reports status
"failed", `search` returns the empty list (and, being a total function into
`SearchTrace`, lets no exception escape). -/
theorem bing_search_failed_run_returns_empty (st : BingSearchState)
    (env : RemoteEnv) (m : Nat) (a : Agent) (th : AgentThread)
    (run : RunOutcome)
    (h1 : env.enterClient = Except.ok ()) (h2 : env.create_agent = Except.ok a)
    (h3 : env.threads_create = Except.ok th)
    (h4 : env.messages_create = Except.ok ())
    (h5 : env.runs_create_and_process = Except.ok run)
    (h6 : run.status = "failed") :
    (BingSearch.search st env m).result = [] := by
  apply search_result_of_body_empty
  unfold withBlockBody
  rw [h1, h2, h3, h4, h5]
  simp [h6]

theorem bing_search_failed_run_returns_empty_witness :
    (BingSearch.search { query := "q", query_domains := QueryDomains.none }
      { okEnv with runs_create_and_process := Except.ok { status := "failed" } }
      7).result = [] :=
  bing_search_failed_run_returns_empty
    { query := "q", query_domains := QueryDomains.none }
    { okEnv with runs_create_and_process := Except.ok { status := "failed" } }
    7 { id := "agent-1" } { id := "thread-1" } { status := "failed" }
    rfl rfl rfl rfl rfl rfl

/-- Claim C5: the message whose text is extracted is found by scanning the
listed messages in reverse order for the first one whose role is "assistant"
(equivalently, the last assistant message of the list), and when no
assistant-authored message exists, `search` returns the empty list. -/
theorem bing_search_assistant_selection (st : BingSearchState)
    (env : RemoteEnv) (m : Nat) (a : Agent) (th : AgentThread)
    (run : RunOutcome) (messages : List ThreadMessage)
    (h1 : env.enterClient = Except.ok ()) (h2 : env.create_agent = Except.ok a)
    (h3 : env.threads_create = Except.ok th)
    (h4 : env.messages_create = Except.ok ())
    (h5 : env.runs_create_and_process = Except.ok run)
    (h6 : run.status ≠ "failed")
    (h7 : env.messages_list = Except.ok messages) :
    (findLastAssistant messages
      = (messages.filter (fun msg => msg.role == Option.some "assistant")).getLast?)
    ∧ ((∀ msg ∈ messages, msg.role ≠ Option.some "assistant") →
        (BingSearch.search st env m).result = []) := by
  constructor
  · unfold findLastAssistant
    exact (List.filter_getLast? _ _).symm
  · intro hnone
    have hfind : findLastAssistant messages = Option.none := by
      unfold findLastAssistant
      rw [List.find?_eq_none]
      intro x hx
      simp only [beq_iff_eq]
      exact hnone x (List.mem_reverse.mp hx)
    have hbuild : buildResponseList messages = [] := by
      unfold buildResponseList
      rw [hfind]
    apply search_result_of_body_empty
    unfold withBlockBody
    rw [h1, h2, h3, h4, h5, h7]
    simp [h6, hbuild]

theorem bing_search_assistant_selection_witness :
    (findLastAssistant [{ role := Option.some "user", text := Option.none }]
      = (([{ role := Option.some "user", text := Option.none }] : List ThreadMessage).filter
          (fun msg => msg.role == Option.some "assistant")).getLast?)
    ∧ (BingSearch.search { query := "q", query_domains := QueryDomains.none }
        { okEnv with
            messages_list :=
              Except.ok [{ role := Option.some "user", text := Option.none }] }
        7).result = [] := by
  have h := bing_search_assistant_selection
    { query := "q", query_domains := QueryDomains.none }
    { okEnv with
        messages_list := Except.ok [{ role := Option.some "user", text := Option.none }] }
    7 { id := "agent-1" } { id := "thread-1" } { status := "completed" }
    [{ role := Option.some "user", text := Option.none }]
    rfl rfl rfl rfl rfl (by decide) rfl
  exact ⟨h.1, h.2 (by decide)⟩

/-- Claim C6: the extracted assistant message contributes one output entry per
annotation via `formatAnnotation`, and every missing input field (type, text,
start index, end index, url citation) is mapped to `Option.none` in the output
rather than causing a failure; in particular an annotation with no
url_citation yields an output entry whose url_citation field is none. -/
theorem bing_search_annotation_defaults (messages : List ThreadMessage)
    (msg : ThreadMessage) (t : MessageText) (v : String)
    (h1 : findLastAssistant messages = Option.some msg)
    (h2 : msg.text = Option.some t) (h3 : t.value = Option.some v) :
    (buildResponseList messages
      = [{ type := "text",
           text := { value := v,
                     annotations := t.annotations.map formatAnnotation } }])
    ∧ ∀ a ∈ t.annotations,
        (a.type = Option.none → ( formatAnnotation a).type = Option.none)
        ∧ (a.text = Option.none → ( formatAnnotation a).text = Option.none)
        ∧ (a.start_index = Option.none →
            ( formatAnnotation a).start_index = Option.none)
        ∧ (a.end_index = Option.none →
            ( formatAnnotation a).end_index = Option.none)
        ∧ (a.url_citation = Option.none →
            ( formatAnnotation a).url_citation = Option.none) := by
  constructor
  · simp [buildResponseList, h1, h2, h3]
  · intro a ha
    refine ⟨fun h => ?_, fun h => ?_, fun h => ?_, fun h => ?_, fun h => ?_⟩ <;>
      simp [ formatAnnotation, h]

theorem bing_search_annotation_defaults_witness :
    (buildResponseList
        [{ role := Option.some "assistant",
           text := Option.some
             { value := Option.some "answer",
               annotations := [{ type := Option.none, text := Option.none,
                                 start_index := Option.none, end_index := Option.none,
                                 url_citation := Option.none }] } }]
      = [{ type := "text",
           text := { value := "answer",
                     annotations := [ formatAnnotation
                       { type := Option.none, text := Option.none,
                         start_index := Option.none, end_index := Option.none,
                         url_citation := Option.none }] } }])
    ∧ ( formatAnnotation
        { type := Option.none, text := Option.none, start_index := Option.none,
          end_index := Option.none,
          url_citation := Option.none }).url_citation = Option.none := by
  have h := bing_search_annotation_defaults
    [{ role := Option.some "assistant",
       text := Option.some
         { value := Option.some "answer",
           annotations := [{ type := Option.none, text := Option.none,
                             start_index := Option.none, end_index := Option.none,
                             url_citation := Option.none }] } }]
    { role := Option.some "assistant",
      text := Option.some
        { value := Option.some "answer",
          annotations := [{ type := Option.none, text := Option.none,
                            start_index := Option.none, end_index := Option.none,
                            url_citation := Option.none }] } }
    { value := Option.some "answer",
      annotations := [{ type := Option.none, text := Option.none,
                        start_index := Option.none, end_index := Option.none,
                        url_citation := Option.none }] }
    "answer" rfl rfl rfl
  exact ⟨h.1,
    (h.2 _ (by simp)).2.2.2.2 rfl⟩

/-- Claim C7: construction raises precisely when a required environment
setting (project endpoint or Bing connection name) is absent or empty; with
both present and non-empty it does not raise for that reason. -/
theorem bing_init_env_requirements (q : String) (qd : QueryDomains)
    (ev : EnvVars) :
    (∃ e, BingSearch.init q qd ev = Except.error e) ↔
      ((ev.ai_project_endpoint = Option.none
          ∨ ev.ai_project_endpoint = Option.some "")
        ∨ (ev.bing_connection_name = Option.none
          ∨ ev.bing_connection_name = Option.some "")) := by
  have key : (∃ e, BingSearch.init q qd ev = Except.error e) ↔
      (!(truthyEnvValue ev.ai_project_endpoint)
        || !(truthyEnvValue ev.bing_connection_name)) = true := by
    unfold BingSearch.init
    split
    · next hc => simp [hc]
    · next hc => simp [hc]
  rw [key]
  simp only [Bool.or_eq_true, Bool.not_eq_true']
  rw [truthyEnvValue_eq_false, truthyEnvValue_eq_false]

theorem bing_init_env_requirements_witness :
    (∃ e, BingSearch.init "q" QueryDomains.none
        { ai_project_endpoint := Option.some "",
          bing_connection_name := Option.some "bing-conn" } = Except.error e)
    ∧ ¬(∃ e, BingSearch.init "q" QueryDomains.none sampleEnvVars
        = Except.error e) := by
  constructor
  · exact (bing_init_env_requirements "q" QueryDomains.none
      { ai_project_endpoint := Option.some "",
        bing_connection_name := Option.some "bing-conn" }).mpr
      (Or.inl (Or.inr rfl))
  · intro hex
    have hd := (bing_init_env_requirements "q" QueryDomains.none sampleEnvVars).mp hex
    exact absurd hd (by decide)

/-- Claim C8: `max_results` has no influence on `search` — two calls on the
same state and the same remote environment that differ only in `max_results`
produce identical traces (same transmitted query, same result list). -/
theorem bing_search_ignores_max_results (st : BingSearchState)
    (env : RemoteEnv) (m1 m2 : Nat) :
    BingSearch.search st env m1 = BingSearch.search st env m2 := rfl

/-- Claim C9: the list returned by `search` never holds two or more entries:
it is empty or a singleton. -/
theorem bing_search_at_most_one_result (st : BingSearchState)
    (env : RemoteEnv) (m : Nat) :
    (BingSearch.search st env m).result.length ≤ 1 := by
  unfold BingSearch.search
  cases h : (searchBody st env).outcome with
  | error e => simp [h]
  | ok l =>
    simp only [h]
    exact withBlockBody_ok_length st env l (applyExit_outcome_ok _ _ _ h)

/-- Claim C10: constructing with an empty domain list (or the falsy string
value) is the same as constructing with no domain filters: the stored filters
normalize to none and the built query is the raw query unchanged. -/
theorem bing_init_falsy_domains_normalized (q : String) (ev : EnvVars) :
    (BingSearch.init q (QueryDomains.list []) ev
      = BingSearch.init q QueryDomains.none ev)
    ∧ (BingSearch.init q (QueryDomains.str "") ev
      = BingSearch.init q QueryDomains.none ev)
    ∧ ∀ st, BingSearch.init q (QueryDomains.list []) ev = Except.ok st →
        st.query_domains = QueryDomains.none
        ∧ buildQuery st.query st.query_domains = st.query := by
  refine ⟨rfl, rfl, ?_⟩
  intro st h
  have hst := init_ok_inv _ _ _ _ h
  subst hst
  exact ⟨rfl, rfl⟩

theorem bing_init_falsy_domains_normalized_witness :
    (BingSearch.init "q" (QueryDomains.list []) sampleEnvVars
      = BingSearch.init "q" QueryDomains.none sampleEnvVars)
    ∧ ({ query := "q", query_domains := QueryDomains.none }
        : BingSearchState).query_domains = QueryDomains.none
    ∧ buildQuery "q" QueryDomains.none = "q" := by
  have h := bing_init_falsy_domains_normalized "q" sampleEnvVars
  have h3 := h.2.2 { query := "q", query_domains := QueryDomains.none } rfl
  exact ⟨h.1, h3.1, h3.2⟩

end GptResearcher.Bing
